import Mathlib

/-!
Shallow embedding of `gstools/covmodel/models.py`: the nine concrete
covariance models (Gaussian, Exponential, Matern, Stable, Rational, Linear,
Circular, Spherical, HyperSpherical).  Each python method working on numpy
double arrays elementwise is embedded as a real function; the external
scipy special functions that Mathlib does not provide (the modified Bessel
function of the second kind `kv` and the Bessel function of the first kind
`jv`) are taken as function parameters, since the claims under scrutiny do
not depend on their values.  `np.isclose(x, 0)` with numpy's default
tolerances (`rtol = 1e-5`, `atol = 1e-8`) is the test
`|x - 0| <= atol + rtol * |0|`, i.e. `|x| <= 1e-8`, and is embedded as such.
Infinities produced on purpose by the code (`np.inf` fed through
`np.divide`'s `out` argument) are embedded in `EReal`.
-/

noncomputable section

/-- `Gaussian.cor`: `np.exp(-(h ** 2))`. -/
def Gaussian.cor (h : ℝ) : ℝ := Real.exp (-(h ^ 2))

/-- `Gaussian.spectral_density`:
`(len_rescaled / 2 / sqrt(pi)) ** dim * exp(-((k * len_rescaled / 2) ** 2))`. -/
def Gaussian.spectral_density (dim : ℕ) (len_rescaled k : ℝ) : ℝ :=
  (len_rescaled / 2 / Real.sqrt Real.pi) ^ dim *
    Real.exp (-((k * len_rescaled / 2) ^ 2))

/-- `Exponential.cor`: `np.exp(-h)`. -/
def Exponential.cor (h : ℝ) : ℝ := Real.exp (-h)

/-- `Exponential.spectral_rad_ppf`: dimension branch.  For `dim == 1` the
value is `tan(pi/2 * u) / len_rescaled`; for `dim == 2` the code computes
`u_power = np.divide(1, u**2, out=inf, where=not isclose(u, 0))`, i.e. `1/u²`
where `|u| > 1e-8` and `+inf` on the `isclose` neighbourhood of `0`, and
returns `sqrt(u_power - 1) / len_rescaled`; in floating point, for a positive
`len_rescaled`, `sqrt(inf - 1) / len_rescaled` is `+inf`, embedded as
`(⊤ : EReal)`.  Other dimensions return `None`. -/
def Exponential.spectral_rad_ppf (dim : ℕ) (len_rescaled u : ℝ) :
    Option EReal :=
  if dim = 1 then some ((Real.tan (Real.pi / 2 * u) / len_rescaled : ℝ) : EReal)
  else if dim = 2 then
    some (if |u| ≤ 1e-8 then (⊤ : EReal)
      else ((Real.sqrt (1 / u ^ 2 - 1) / len_rescaled : ℝ) : EReal))
  else none

/-- `Linear.cor`: `np.maximum(1 - np.abs(h), 0.0)`. -/
def Linear.cor (h : ℝ) : ℝ := max (1 - |h|) 0

/-- `Circular.cor`: with `h := np.abs(h)`, result `0` outside `h < 1` and
`2/pi * (arccos(h) - h * sqrt(1 - h**2))` on `h < 1`. -/
def Circular.cor (h : ℝ) : ℝ :=
  if |h| < 1 then
    2 / Real.pi * (Real.arccos |h| - |h| * Real.sqrt (1 - |h| ^ 2))
  else 0

/-- `Spherical.cor`: with `h := np.minimum(np.abs(h), 1.0)`,
`1.0 - 1.5 * h + 0.5 * h ** 3`. -/
def Spherical.cor (h : ℝ) : ℝ :=
  1 - 1.5 * min |h| 1 + 0.5 * min |h| 1 ^ 3

/-- `Stable.cor`: `np.exp(-np.power(h, self.alpha))` (real power). -/
def Stable.cor (alpha h : ℝ) : ℝ := Real.exp (-(h ^ alpha))

/-- `Rational.cor`: `np.power(1 + 0.5 / self.alpha * h ** 2, -self.alpha)`. -/
def Rational.cor (alpha h : ℝ) : ℝ :=
  (1 + 0.5 / alpha * h ^ 2) ^ (-alpha)

/-- `Stable.default_opt_arg_bounds`: `{"alpha": [0, 2, "oc"]}`. -/
def Stable.default_opt_arg_bounds : List (String × (ℝ × ℝ × String)) :=
  [("alpha", (0, 2, "oc"))]

/-- `Stable.check_opt_arg`: emits the instability warning when
`self.alpha < 0.3`; it produces warnings only and never raises, embedded as
the list of warning messages issued. -/
def Stable.check_opt_arg (alpha : ℝ) : List String :=
  if alpha < 0.3 then
    ["Stable: parameter alpha is < 0.3, count with unstable results"]
  else []

/-- `Matern.default_opt_arg`: `{"nu": 1.0}`. -/
def Matern.default_opt_arg : List (String × ℝ) := [("nu", 1.0)]

/-- `Matern.default_opt_arg_bounds`: `{"nu": [0.2, 30.0, "cc"]}`. -/
def Matern.default_opt_arg_bounds : List (String × (ℝ × ℝ × String)) :=
  [("nu", (0.2, 30.0, "cc"))]

/-- Modelled from the spec: the generic bounds check of the `CovModel` base
contract (the class lives in `gstools.covmodel`, outside the provided
source).  A bounds entry is `[lower, upper, flags]` where the two-character
flag string gives the inclusivity of each end, first character for the lower
end and second for the upper, with `o` open and `c` closed (default `"cc"`). -/
def optBoundsMem (lo hi : ℝ) (flags : String) (x : ℝ) : Prop :=
  (if flags = "oo" ∨ flags = "oc" then lo < x else lo ≤ x) ∧
    (if flags = "oo" ∨ flags = "co" then x < hi else x ≤ hi)

/-- `Matern.cor`: with `h := np.abs(h)`, for `nu > 20` the Gaussian limit
`exp(-((h / 2) ** 2))`; otherwise `1` at `h == 0` and the log-domain formula
`exp((1 - nu) * log 2 - loggamma(nu) + nu * log(sqrt(nu) * h)) * kv(nu, sqrt(nu) * h)`
at `h > 0` (with `kv` the modified Bessel function of the second kind,
abstracted), followed by the floor `np.maximum(res, 0.0)` applied to every
entry.  The non-finite cleanup `res[~isfinite] = 0` is a no-op over `ℝ`. -/
def Matern.cor (nu : ℝ) (kv : ℝ → ℝ → ℝ) (h : ℝ) : ℝ :=
  if 20 < nu then Real.exp (-((|h| / 2) ^ 2))
  else
    max
      (if |h| = 0 then 1
       else
         Real.exp ((1 - nu) * Real.log 2 - Real.log (Real.Gamma nu) +
             nu * Real.log (Real.sqrt nu * |h|)) *
           kv nu (Real.sqrt nu * |h|))
      0

/-- `Matern.spectral_density`: for `nu > 20` the Gaussian-limit expression
with its first-order `1/nu` correction; otherwise the exact log-gamma
formula. -/
def Matern.spectral_density (dim : ℕ) (nu len_rescaled k : ℝ) : ℝ :=
  if 20 < nu then
    (len_rescaled / Real.sqrt Real.pi) ^ dim *
      Real.exp (-((k * len_rescaled) ^ 2)) *
      (1 + (((k * len_rescaled) ^ 2 - dim / 2) ^ 2 - dim / 2) / nu)
  else
    (len_rescaled / Real.sqrt Real.pi) ^ dim *
      Real.exp (-(nu + dim / 2) * Real.log (1 + (k * len_rescaled) ^ 2 / nu) +
        Real.log (Real.Gamma (nu + dim / 2)) - Real.log (Real.Gamma nu) -
        dim * Real.log (Real.sqrt nu))

/-- Gauss hypergeometric series `₂F₁(a, -n; c; x)` with second parameter a
nonpositive integer `-n`, where the series terminates after `n + 1` terms:
the values the external `sps.hyp2f1(0.5, -nu, 1.5, x)` returns for the odd
dimensions used by `HyperSpherical` (`nu = (dim - 1) / 2` integral). -/
def hyp2f1Fin (a : ℝ) (n : ℕ) (c : ℝ) (x : ℝ) : ℝ :=
  Finset.sum (Finset.range (n + 1)) fun j =>
    (Finset.prod (Finset.range j) fun i => a + i) *
        (Finset.prod (Finset.range j) fun i => -(n : ℝ) + i) /
        ((Finset.prod (Finset.range j) fun i => c + i) * (Nat.factorial j)) *
      x ^ j

/-- `HyperSpherical.cor`, generic in the hypergeometric evaluations: with
`F x = hyp2f1(0.5, -nu, 1.5, x)` for `nu = (dim - 1) / 2`, the result is `0`
outside `h < 1` and `1 - h * (1 / F 1) * F (h ** 2)` on `h < 1` (the input is
not passed through `np.abs`). -/
def HyperSpherical.cor (F : ℝ → ℝ) (h : ℝ) : ℝ :=
  if h < 1 then 1 - h * (1 / F 1) * F (h ^ 2) else 0

/-- `HyperSpherical.cor` for an odd dimension `dim = 2 * m + 1`, where
`nu = (dim - 1) / 2 = m` and `sps.hyp2f1(0.5, -m, 1.5, x)` is the
terminating series `hyp2f1Fin 0.5 m 1.5 x`. -/
def HyperSpherical.corOdd (m : ℕ) (h : ℝ) : ℝ :=
  HyperSpherical.cor (hyp2f1Fin 0.5 m 1.5) h

/-- `HyperSpherical.spectral_density`: on `np.isclose(k, 0)` (i.e.
`|k| <= 1e-8`) the closed-form limit
`(len_rescaled / 4) ** dim / gamma(dim/2 + 1) / sqrt(pi) ** dim`; elsewhere
`gamma(dim/2 + 1) / sqrt(pi) ** dim * jv(dim/2, k * len_rescaled / 2) ** 2 / k ** dim`
(with `jv` the Bessel function of the first kind, abstracted). -/
def HyperSpherical.spectral_density (dim : ℕ) (len_rescaled : ℝ)
    (jv : ℝ → ℝ → ℝ) (k : ℝ) : ℝ :=
  if |k| ≤ 1e-8 then
    (len_rescaled / 4) ^ dim / Real.Gamma (dim / 2 + 1) /
      Real.sqrt Real.pi ^ dim
  else
    Real.Gamma (dim / 2 + 1) / Real.sqrt Real.pi ^ dim *
      jv (dim / 2) (k * len_rescaled / 2) ^ 2 / k ^ dim

/-- Evaluation helper: the terminating hypergeometric series with `n = 0`
is constantly `1`. -/
theorem hyp2f1Fin_zero (a c x : ℝ) : hyp2f1Fin a 0 c x = 1 := by
  simp [hyp2f1Fin]

/-- Evaluation helper: the terminating hypergeometric series with `n = 1`
(parameters `a = 0.5`, `c = 1.5`) is `1 - x / 3`. -/
theorem hyp2f1Fin_one (x : ℝ) : hyp2f1Fin 0.5 1 1.5 x = 1 - x / 3 := by
  simp [hyp2f1Fin, Finset.sum_range_succ, Finset.prod_range_succ]
  norm_num
  ring

/-- C1: for every concrete model (Gaussian, Exponential, Matern, Stable,
Rational, Linear, Circular, Spherical, HyperSpherical) and every valid
parameter setting, the normalized correlation function at lag zero is
exactly `1`.  The Matern statement holds for any shape `nu` and any Bessel
function `kv`; the Stable one needs its validity bound `0 < alpha`; the
HyperSpherical one holds for any hypergeometric evaluations `F`. -/
theorem cor_at_zero_eq_one :
    Gaussian.cor 0 = 1 ∧ Exponential.cor 0 = 1 ∧
      (∀ (nu : ℝ) (kv : ℝ → ℝ → ℝ), Matern.cor nu kv 0 = 1) ∧
      (∀ alpha : ℝ, 0 < alpha → Stable.cor alpha 0 = 1) ∧
      (∀ alpha : ℝ, Rational.cor alpha 0 = 1) ∧
      Linear.cor 0 = 1 ∧ Circular.cor 0 = 1 ∧ Spherical.cor 0 = 1 ∧
      (∀ F : ℝ → ℝ, HyperSpherical.cor F 0 = 1) := by
  refine ⟨by simp [Gaussian.cor], by simp [Exponential.cor], ?_, ?_, ?_,
    by norm_num [Linear.cor], ?_, by norm_num [Spherical.cor], ?_⟩
  · intro nu kv
    unfold Matern.cor
    split
    · simp
    · norm_num
  · intro alpha halpha
    simp [Stable.cor, Real.zero_rpow halpha.ne']
  · intro alpha
    simp [Rational.cor]
  · norm_num [Circular.cor, Real.arccos_zero]
    field_simp
  · intro F
    simp [HyperSpherical.cor]

/-- Witness for C1: the Stable hypothesis `0 < alpha` is satisfiable at the
default `alpha = 1.5`, where `cor 0 = 1` indeed holds. -/
theorem cor_at_zero_eq_one_witness :
    (0 : ℝ) < 1.5 ∧ Stable.cor 1.5 0 = 1 :=
  ⟨by norm_num, cor_at_zero_eq_one.2.2.2.1 1.5 (by norm_num)⟩

/-- C2: every bounded-support model (Linear, Circular, Spherical,
HyperSpherical) returns exactly `0` at any lag `h ≥ 1`; for HyperSpherical
this holds whatever the hypergeometric function values are. -/
theorem bounded_support_cor_eq_zero (h : ℝ) (hh : 1 ≤ h) :
    Linear.cor h = 0 ∧ Circular.cor h = 0 ∧ Spherical.cor h = 0 ∧
      ∀ F : ℝ → ℝ, HyperSpherical.cor F h = 0 := by
  have habs : |h| = h := abs_of_nonneg (le_trans zero_le_one hh)
  refine ⟨?_, ?_, ?_, ?_⟩
  · unfold Linear.cor
    rw [habs]
    exact max_eq_right (by linarith)
  · unfold Circular.cor
    rw [if_neg (by rw [habs]; exact not_lt.2 hh)]
  · unfold Spherical.cor
    rw [habs, min_eq_right hh]
    norm_num
  · intro F
    unfold HyperSpherical.cor
    rw [if_neg (not_lt.2 hh)]

/-- Witness for C2: at the concrete lag `h = 2 ≥ 1` all four
bounded-support correlation functions evaluate to `0`. -/
theorem bounded_support_cor_eq_zero_witness :
    (1 : ℝ) ≤ 2 ∧
      (Linear.cor 2 = 0 ∧ Circular.cor 2 = 0 ∧ Spherical.cor 2 = 0 ∧
        ∀ F : ℝ → ℝ, HyperSpherical.cor F 2 = 0) :=
  ⟨by norm_num, bounded_support_cor_eq_zero 2 (by norm_num)⟩

/-- C3: in the Matern model with shape `nu > 20`, `cor` returns the
Gaussian-limit closed form `exp(-(h/2)^2)` for every `h ≥ 0` (whatever the
Bessel function `kv` is), and `spectral_density` returns the Gaussian-limit
expression — the Gaussian spectral density at the doubled rescaled length —
times the first-order correction `1 + (((k*len)^2 - dim/2)^2 - dim/2) / nu`
in `1/nu`, instead of the exact log-gamma formula. -/
theorem matern_large_nu_gaussian_limit (nu : ℝ) (hnu : 20 < nu) :
    (∀ (kv : ℝ → ℝ → ℝ) (h : ℝ), 0 ≤ h →
        Matern.cor nu kv h = Real.exp (-((h / 2) ^ 2))) ∧
      ∀ (dim : ℕ) (len_rescaled k : ℝ),
        Matern.spectral_density dim nu len_rescaled k =
          Gaussian.spectral_density dim (2 * len_rescaled) k *
            (1 + (((k * len_rescaled) ^ 2 - dim / 2) ^ 2 - dim / 2) / nu) := by
  constructor
  · intro kv h hh
    unfold Matern.cor
    rw [if_pos hnu, abs_of_nonneg hh]
  · intro dim len_rescaled k
    unfold Matern.spectral_density Gaussian.spectral_density
    rw [if_pos hnu]
    have h1 : 2 * len_rescaled / 2 / Real.sqrt Real.pi =
        len_rescaled / Real.sqrt Real.pi := by ring
    have h2 : k * (2 * len_rescaled) / 2 = k * len_rescaled := by ring
    rw [h1, h2]

/-- Witness for C3: at `nu = 30 > 20` and lag `h = 1 ≥ 0` the Matern
correlation (with an arbitrary concrete `kv`) equals the Gaussian-limit
value. -/
theorem matern_large_nu_gaussian_limit_witness :
    (20 : ℝ) < 30 ∧ (0 : ℝ) ≤ 1 ∧
      Matern.cor 30 (fun _ _ => 0) 1 = Real.exp (-((1 / 2) ^ 2)) :=
  ⟨by norm_num, by norm_num,
    (matern_large_nu_gaussian_limit 30 (by norm_num)).1 (fun _ _ => 0) 1
      (by norm_num)⟩

/-- C5: `Stable.check_opt_arg` emits its (single, non-fatal) warning exactly
when `alpha < 0.3` and never signals an error; the declared bounds
`[0, 2, "oc"]` read as the half-open interval `(0, 2]`, and `alpha = 0.2`
lies within them while triggering the warning. -/
theorem stable_check_opt_arg_warns_iff :
    (∀ alpha : ℝ, Stable.check_opt_arg alpha ≠ [] ↔ alpha < 0.3) ∧
      Stable.default_opt_arg_bounds = [("alpha", (0, 2, "oc"))] ∧
      (∀ alpha : ℝ, optBoundsMem 0 2 "oc" alpha ↔ 0 < alpha ∧ alpha ≤ 2) ∧
      optBoundsMem 0 2 "oc" 0.2 ∧ Stable.check_opt_arg 0.2 ≠ [] := by
  have hbounds : ∀ alpha : ℝ,
      optBoundsMem 0 2 "oc" alpha ↔ 0 < alpha ∧ alpha ≤ 2 := by
    intro alpha
    unfold optBoundsMem
    rw [if_pos (by decide), if_neg (by decide)]
  refine ⟨?_, rfl, hbounds, (hbounds 0.2).2 (by norm_num), ?_⟩
  · intro alpha
    by_cases hc : alpha < 0.3 <;> simp [Stable.check_opt_arg, hc]
  · rw [Stable.check_opt_arg, if_pos (by norm_num)]
    simp

/-- C4 counterexample: `u = 1e-9` lies in `(0, 1)`, yet the dimension-2
Exponential ppf (at `len_rescaled = 1`) does not return the closed form
`sqrt(1/u^2 - 1) / len_rescaled` there — it returns `+inf`, because `1e-9`
is within the `np.isclose` tolerance of `0`. -/
theorem exponential_ppf_claim_counterexample :
    (0 : ℝ) < 1e-9 ∧ (1e-9 : ℝ) < 1 ∧
      Exponential.spectral_rad_ppf 2 1 1e-9 ≠
        some ((Real.sqrt (1 / (1e-9 : ℝ) ^ 2 - 1) / 1 : ℝ) : EReal) := by
  refine ⟨by norm_num, by norm_num, ?_⟩
  unfold Exponential.spectral_rad_ppf
  rw [if_neg (by norm_num), if_pos rfl,
    if_pos (by rw [abs_of_nonneg (by norm_num : (0:ℝ) ≤ 1e-9)]; norm_num)]
  intro hcontra
  exact (EReal.coe_ne_top _) (Option.some.inj hcontra).symm

/-- C4 (amended): the dimension-2 Exponential ppf returns `+inf` at `u = 0`
(never NaN or an error), and returns `sqrt(1/u^2 - 1) / len_rescaled` for
every `u` in `(0, 1)` outside the `np.isclose` tolerance of `0`
(`u > 1e-8`). -/
theorem exponential_ppf_dim2_guard (len_rescaled u : ℝ) :
    Exponential.spectral_rad_ppf 2 len_rescaled 0 = some ⊤ ∧
      (0 < u → u < 1 → 1e-8 < u →
        Exponential.spectral_rad_ppf 2 len_rescaled u =
          some ((Real.sqrt (1 / u ^ 2 - 1) / len_rescaled : ℝ) : EReal)) := by
  constructor
  · unfold Exponential.spectral_rad_ppf
    rw [if_neg (by norm_num), if_pos rfl, if_pos (by norm_num)]
  · intro hu0 _ hutol
    unfold Exponential.spectral_rad_ppf
    rw [if_neg (by norm_num), if_pos rfl,
      if_neg (by rw [abs_of_nonneg hu0.le]; exact not_le.2 hutol)]

/-- Witness for C4 (amended): at `u = 1/2` (inside `(0,1)`, outside the
tolerance) the finite closed-form value is returned. -/
theorem exponential_ppf_dim2_guard_witness :
    (0 : ℝ) < 1 / 2 ∧ (1 / 2 : ℝ) < 1 ∧ (1e-8 : ℝ) < 1 / 2 ∧
      Exponential.spectral_rad_ppf 2 1 (1 / 2) =
        some ((Real.sqrt (1 / (1 / 2 : ℝ) ^ 2 - 1) / 1 : ℝ) : EReal) :=
  ⟨by norm_num, by norm_num, by norm_num,
    (exponential_ppf_dim2_guard 1 (1 / 2)).2 (by norm_num) (by norm_num)
      (by norm_num)⟩

/-- C9: the dimension-2 Exponential ppf returns `+inf` for every `u` within
the `np.isclose` default tolerance of `0` (`|u| ≤ 1e-8`), and the finite
closed form exactly outside that neighbourhood. -/
theorem exponential_ppf_isclose_tolerance (len_rescaled u : ℝ) :
    (|u| ≤ 1e-8 → Exponential.spectral_rad_ppf 2 len_rescaled u = some ⊤) ∧
      (1e-8 < |u| →
        Exponential.spectral_rad_ppf 2 len_rescaled u =
          some ((Real.sqrt (1 / u ^ 2 - 1) / len_rescaled : ℝ) : EReal)) := by
  constructor
  · intro htol
    unfold Exponential.spectral_rad_ppf
    rw [if_neg (by norm_num), if_pos rfl, if_pos htol]
  · intro htol
    unfold Exponential.spectral_rad_ppf
    rw [if_neg (by norm_num), if_pos rfl, if_neg (not_le.2 htol)]

/-- Witness for C9: `u = 1e-9` is nonzero yet within tolerance, so the ppf
returns `+inf` there. -/
theorem exponential_ppf_isclose_tolerance_witness :
    |(1e-9 : ℝ)| ≤ 1e-8 ∧ Exponential.spectral_rad_ppf 2 1 1e-9 = some ⊤ := by
  have htol : |(1e-9 : ℝ)| ≤ 1e-8 := by
    rw [abs_of_nonneg (by norm_num : (0:ℝ) ≤ 1e-9)]; norm_num
  exact ⟨htol, (exponential_ppf_isclose_tolerance 1 1e-9).1 htol⟩

/-- C7: the HyperSpherical spectral density at `k = 0` is the separate
closed-form limit `(len_rescaled/4)^dim / Gamma(dim/2 + 1) / sqrt(pi)^dim`
(no division by `k^dim`), and away from `0` it is the
Bessel-function-of-the-first-kind formula divided by `k^dim` — whatever the
Bessel function `jv` is. -/
theorem hyperspherical_spectral_density_guard :
    (∀ (dim : ℕ) (len_rescaled : ℝ) (jv : ℝ → ℝ → ℝ),
        HyperSpherical.spectral_density dim len_rescaled jv 0 =
          (len_rescaled / 4) ^ dim / Real.Gamma (dim / 2 + 1) /
            Real.sqrt Real.pi ^ dim) ∧
      ∀ (dim : ℕ) (len_rescaled : ℝ) (jv : ℝ → ℝ → ℝ) (k : ℝ),
        1e-8 < |k| →
        HyperSpherical.spectral_density dim len_rescaled jv k =
          Real.Gamma (dim / 2 + 1) / Real.sqrt Real.pi ^ dim *
            jv (dim / 2) (k * len_rescaled / 2) ^ 2 / k ^ dim := by
  constructor
  · intro dim len_rescaled jv
    unfold HyperSpherical.spectral_density
    rw [if_pos (by norm_num)]
  · intro dim len_rescaled jv k hk
    unfold HyperSpherical.spectral_density
    rw [if_neg (not_le.2 hk)]

/-- Witness for C7: at `dim = 1`, `len_rescaled = 1`, `k = 1` (outside the
`k ≈ 0` guard) the Bessel-formula branch is taken. -/
theorem hyperspherical_spectral_density_guard_witness :
    (1e-8 : ℝ) < |(1 : ℝ)| ∧
      HyperSpherical.spectral_density 1 1 (fun _ _ => 0) 1 =
        Real.Gamma (((1 : ℕ) : ℝ) / 2 + 1) / Real.sqrt Real.pi ^ (1 : ℕ) *
          (0 : ℝ) ^ 2 / (1 : ℝ) ^ (1 : ℕ) :=
  ⟨by norm_num,
    hyperspherical_spectral_density_guard.2 1 1 (fun _ _ => 0) 1
      (by norm_num)⟩

/-- C8: the Matern shape-parameter schema: default `{"nu": 1.0}` and bounds
`{"nu": [0.2, 30.0, "cc"]}`, the closed-closed flag reading as the closed
interval `[0.2, 30.0]`. -/
theorem matern_default_opt_arg_schema :
    Matern.default_opt_arg = [("nu", 1.0)] ∧
      Matern.default_opt_arg_bounds = [("nu", (0.2, 30.0, "cc"))] ∧
      ∀ x : ℝ, optBoundsMem 0.2 30.0 "cc" x ↔ 0.2 ≤ x ∧ x ≤ 30.0 := by
  refine ⟨rfl, rfl, ?_⟩
  intro x
  unfold optBoundsMem
  rw [if_neg (by decide), if_neg (by decide)]

/-- C6: the HyperSpherical model reduces to the lower-dimensional
bounded-support models on nonnegative lags: with `dim = 1` (so `nu = 0`) its
correlation equals the Linear one, and with `dim = 3` (so `nu = 1`) it
equals the Spherical one. -/
theorem hyperspherical_reduces_linear_spherical (h : ℝ) (hh : 0 ≤ h) :
    HyperSpherical.corOdd 0 h = Linear.cor h ∧
      HyperSpherical.corOdd 1 h = Spherical.cor h := by
  have habs : |h| = h := abs_of_nonneg hh
  constructor
  · unfold HyperSpherical.corOdd HyperSpherical.cor Linear.cor
    rw [habs, hyp2f1Fin_zero, hyp2f1Fin_zero]
    by_cases hlt : h < 1
    · rw [if_pos hlt, max_eq_left (by linarith)]
      ring
    · rw [if_neg hlt, max_eq_right (by linarith [not_lt.1 hlt])]
  · unfold HyperSpherical.corOdd HyperSpherical.cor Spherical.cor
    rw [habs, hyp2f1Fin_one, hyp2f1Fin_one]
    by_cases hlt : h < 1
    · rw [if_pos hlt, min_eq_left hlt.le]
      norm_num
      ring
    · rw [if_neg hlt, min_eq_right (not_lt.1 hlt)]
      norm_num

/-- Witness for C6: at the concrete lag `h = 1/2` the HyperSpherical
correlation agrees with Linear (dim 1) and Spherical (dim 3). -/
theorem hyperspherical_reduces_linear_spherical_witness :
    (0 : ℝ) ≤ 1 / 2 ∧
      (HyperSpherical.corOdd 0 (1 / 2) = Linear.cor (1 / 2) ∧
        HyperSpherical.corOdd 1 (1 / 2) = Spherical.cor (1 / 2)) :=
  ⟨by norm_num, hyperspherical_reduces_linear_spherical (1 / 2) (by norm_num)⟩

/-- C10: `HyperSpherical.cor` does not take the absolute value of its input:
at dimension 3 it exceeds `1` at the negative lag `h = -1/2` and is not even
there, while Linear, Circular, Spherical and Matern are even functions; on
nonnegative lags the dimension-3 HyperSpherical correlation does stay inside
`[0, 1]`. -/
theorem hyperspherical_cor_not_even :
    (1 < HyperSpherical.corOdd 1 (-(1 / 2)) ∧
      HyperSpherical.corOdd 1 (-(1 / 2)) ≠ HyperSpherical.corOdd 1 (1 / 2)) ∧
      (∀ h : ℝ, Linear.cor (-h) = Linear.cor h ∧
        Circular.cor (-h) = Circular.cor h ∧
        Spherical.cor (-h) = Spherical.cor h ∧
        ∀ (nu : ℝ) (kv : ℝ → ℝ → ℝ),
          Matern.cor nu kv (-h) = Matern.cor nu kv h) ∧
      ∀ h : ℝ, 0 ≤ h →
        0 ≤ HyperSpherical.corOdd 1 h ∧ HyperSpherical.corOdd 1 h ≤ 1 := by
  have hneg : HyperSpherical.corOdd 1 (-(1 / 2)) = 27 / 16 := by
    unfold HyperSpherical.corOdd HyperSpherical.cor
    rw [if_pos (by norm_num), hyp2f1Fin_one, hyp2f1Fin_one]
    norm_num
  have hpos : HyperSpherical.corOdd 1 (1 / 2) = 5 / 16 := by
    unfold HyperSpherical.corOdd HyperSpherical.cor
    rw [if_pos (by norm_num), hyp2f1Fin_one, hyp2f1Fin_one]
    norm_num
  refine ⟨⟨by rw [hneg]; norm_num, by rw [hneg, hpos]; norm_num⟩, ?_, ?_⟩
  · intro h
    exact ⟨by simp [Linear.cor, abs_neg], by simp [Circular.cor, abs_neg],
      by simp [Spherical.cor, abs_neg],
      fun nu kv => by simp [Matern.cor, abs_neg]⟩
  · intro h hh
    unfold HyperSpherical.corOdd HyperSpherical.cor
    rw [hyp2f1Fin_one, hyp2f1Fin_one]
    by_cases hlt : h < 1
    · rw [if_pos hlt]
      constructor
      · nlinarith [mul_nonneg (sq_nonneg (h - 1)) (by linarith : (0:ℝ) ≤ h + 2)]
      · nlinarith [mul_nonneg hh (by nlinarith : (0:ℝ) ≤ 3 - h ^ 2)]
    · rw [if_neg hlt]
      norm_num

/-- Witness for C10: the range bound on nonnegative lags holds at the
concrete lag `h = 1/2`. -/
theorem hyperspherical_cor_not_even_witness :
    (0 : ℝ) ≤ 1 / 2 ∧
      (0 ≤ HyperSpherical.corOdd 1 (1 / 2) ∧
        HyperSpherical.corOdd 1 (1 / 2) ≤ 1) :=
  ⟨by norm_num, hyperspherical_cor_not_even.2.2 (1 / 2) (by norm_num)⟩
